import Mathlib

/-!
# Verification of the resume-generator core (src/generate.py, src/models/prompts.py)

A shallow embedding of the bounded-concurrency generation pipeline with cost
accounting.  Python floats are modelled by `ℚ`: every arithmetic operation the
embedded code performs on the inputs of interest (division by 1 000 000,
multiplication by the fixed prices, finite sums) is exact, so the rational
model agrees with the double-precision run wherever a claim demands exactness.
Python `int` is `Nat` where the code only ever sees non-negative values
(token counts, indices) and `Int` where the domain is unrestricted
(years of experience).  The cooperative `asyncio` scheduler is modelled by a
small-step transition relation on job phases together with the semaphore
counter.
-/

/-! ## Pricing constants (src/generate.py lines 47-49) -/

/-- `PRICE_INPUT_PER_1M = 0.05`: dollars per 1M input tokens for gpt-5-nano. -/
def PRICE_INPUT_PER_1M : ℚ := 5 / 100

/-- `PRICE_OUTPUT_PER_1M = 0.40`: dollars per 1M output tokens for gpt-5-nano. -/
def PRICE_OUTPUT_PER_1M : ℚ := 40 / 100

/-! ## CostTracker (src/generate.py lines 58-83) -/

/-- The `CostTracker` dataclass: two running token counters and the
append-only list of per-job costs. -/
structure CostTracker where
  total_input_tokens : Nat
  total_output_tokens : Nat
  resume_costs : List ℚ
deriving Repr, DecidableEq

/-- The dataclass defaults: `total_input_tokens = 0`, `total_output_tokens = 0`,
`resume_costs = []`. -/
def CostTracker.init : CostTracker :=
  { total_input_tokens := 0, total_output_tokens := 0, resume_costs := [] }

/-- `CostTracker.add_usage` (lines 65-75): add token usage, append the computed
cost, return the cost.  The Python method mutates `self`; the embedding
returns the updated tracker alongside the returned cost. -/
def CostTracker.add_usage (self : CostTracker) (input_tokens output_tokens : Nat) :
    CostTracker × ℚ :=
  let cost : ℚ :=
    ((input_tokens : ℚ) / 1000000) * PRICE_INPUT_PER_1M +
    ((output_tokens : ℚ) / 1000000) * PRICE_OUTPUT_PER_1M
  ({ total_input_tokens := self.total_input_tokens + input_tokens,
     total_output_tokens := self.total_output_tokens + output_tokens,
     resume_costs := self.resume_costs ++ [cost] }, cost)

/-- The `total_cost` property (lines 77-79): `sum(self.resume_costs)`. -/
def CostTracker.total_cost (self : CostTracker) : ℚ :=
  self.resume_costs.sum

/-- The `avg_cost` property (lines 81-83):
`self.total_cost / len(self.resume_costs) if self.resume_costs else 0`. -/
def CostTracker.avg_cost (self : CostTracker) : ℚ :=
  if self.resume_costs = [] then 0
  else self.total_cost / self.resume_costs.length

/-- A serialized sequence of `add_usage` calls: returns the final tracker and
the list of the per-call returned costs, in call order.  Under the cooperative
single-threaded `asyncio` scheduler every concurrent history of `add_usage`
calls is one such serialization. -/
def runCalls (t : CostTracker) : List (Nat × Nat) → CostTracker × List ℚ
  | [] => (t, [])
  | (i, o) :: rest =>
    let step := t.add_usage i o
    let tail := runCalls step.1 rest
    (tail.1, step.2 :: tail.2)

/-! ## Basic lemmas about CostTracker -/

lemma add_usage_fst (t : CostTracker) (i o : Nat) :
    (t.add_usage i o).1 =
      { total_input_tokens := t.total_input_tokens + i,
        total_output_tokens := t.total_output_tokens + o,
        resume_costs := t.resume_costs ++ [(t.add_usage i o).2] } := rfl

lemma runCalls_input (t : CostTracker) (calls : List (Nat × Nat)) :
    (runCalls t calls).1.total_input_tokens =
      t.total_input_tokens + (calls.map Prod.fst).sum := by
  induction calls generalizing t with
  | nil => simp [runCalls]
  | cons c rest ih =>
    obtain ⟨i, o⟩ := c
    simp [runCalls, ih, CostTracker.add_usage]
    ring

lemma runCalls_output (t : CostTracker) (calls : List (Nat × Nat)) :
    (runCalls t calls).1.total_output_tokens =
      t.total_output_tokens + (calls.map Prod.snd).sum := by
  induction calls generalizing t with
  | nil => simp [runCalls]
  | cons c rest ih =>
    obtain ⟨i, o⟩ := c
    simp [runCalls, ih, CostTracker.add_usage]
    ring

lemma runCalls_costs (t : CostTracker) (calls : List (Nat × Nat)) :
    (runCalls t calls).1.resume_costs =
      t.resume_costs ++ (runCalls t calls).2 := by
  induction calls generalizing t with
  | nil => simp [runCalls]
  | cons c rest ih =>
    obtain ⟨i, o⟩ := c
    simp [runCalls, ih, CostTracker.add_usage]

lemma runCalls_length (t : CostTracker) (calls : List (Nat × Nat)) :
    (runCalls t calls).2.length = calls.length := by
  induction calls generalizing t with
  | nil => rfl
  | cons c rest ih =>
    obtain ⟨i, o⟩ := c
    simp [runCalls, ih]

lemma runCalls_append (t : CostTracker) (l1 l2 : List (Nat × Nat)) :
    (runCalls t (l1 ++ l2)).1 = (runCalls (runCalls t l1).1 l2).1 := by
  induction l1 generalizing t with
  | nil => rfl
  | cons c rest ih =>
    obtain ⟨i, o⟩ := c
    simp [runCalls, ih]

/-! ## Claims about CostTracker -/

/-- C1: after any serialized sequence of `add_usage` calls with non-negative
token counts, starting from a fresh tracker: `total_cost` equals the sum of
the per-call returned costs, the token counters equal the sums of the inputs,
`resume_costs` has one entry per call, `total_cost == sum(resume_costs)`
holds after every prefix of the sequence, and the token counters never
decrease as the sequence extends. -/
theorem C1_cost_tracker_invariants (calls : List (Nat × Nat)) :
    (runCalls CostTracker.init calls).1.total_cost =
      (runCalls CostTracker.init calls).2.sum ∧
    (runCalls CostTracker.init calls).1.total_input_tokens =
      (calls.map Prod.fst).sum ∧
    (runCalls CostTracker.init calls).1.total_output_tokens =
      (calls.map Prod.snd).sum ∧
    (runCalls CostTracker.init calls).1.resume_costs.length = calls.length ∧
    (∀ l1 l2, calls = l1 ++ l2 →
      (runCalls CostTracker.init l1).1.total_cost =
        (runCalls CostTracker.init l1).1.resume_costs.sum ∧
      (runCalls CostTracker.init l1).1.total_input_tokens ≤
        (runCalls CostTracker.init calls).1.total_input_tokens ∧
      (runCalls CostTracker.init l1).1.total_output_tokens ≤
        (runCalls CostTracker.init calls).1.total_output_tokens) := by
  refine ⟨?_, ?_, ?_, ?_, ?_⟩
  · rw [CostTracker.total_cost, runCalls_costs]
    simp [CostTracker.init]
  · rw [runCalls_input]; simp [CostTracker.init]
  · rw [runCalls_output]; simp [CostTracker.init]
  · have h := runCalls_costs CostTracker.init calls
    rw [h]
    simp [CostTracker.init, runCalls_length]
  · rintro l1 l2 rfl
    refine ⟨rfl, ?_, ?_⟩
    · rw [runCalls_append, runCalls_input (runCalls CostTracker.init l1).1 l2]
      exact Nat.le_add_right _ _
    · rw [runCalls_append, runCalls_output (runCalls CostTracker.init l1).1 l2]
      exact Nat.le_add_right _ _

/-- Witness for C1: the prefix `[(100, 50)]` of the two-call sequence
`[(100, 50), (200, 75)]` has token counters bounded by the final ones. -/
theorem C1_cost_tracker_invariants_witness :
    (runCalls CostTracker.init [(100, 50)]).1.total_input_tokens ≤
      (runCalls CostTracker.init [(100, 50), (200, 75)]).1.total_input_tokens ∧
    (runCalls CostTracker.init [(100, 50)]).1.total_output_tokens ≤
      (runCalls CostTracker.init [(100, 50), (200, 75)]).1.total_output_tokens := by
  have h := (C1_cost_tracker_invariants [(100, 50), (200, 75)]).2.2.2.2
    [(100, 50)] [(200, 75)] rfl
  exact ⟨h.2.1, h.2.2⟩

/-- C4: `add_usage` returns
`input_tokens * (PRICE_INPUT_PER_1M / 1e6) + output_tokens * (PRICE_OUTPUT_PER_1M / 1e6)`
(the per-token prices), and in particular `add_usage(1_000_000, 0)` returns
exactly `PRICE_INPUT_PER_1M` and `add_usage(0, 1_000_000)` returns exactly
`PRICE_OUTPUT_PER_1M`. -/
theorem C4_add_usage_cost_formula (t : CostTracker) (i o : Nat) :
    (t.add_usage i o).2 =
      (i : ℚ) * (PRICE_INPUT_PER_1M / 1000000) +
      (o : ℚ) * (PRICE_OUTPUT_PER_1M / 1000000) ∧
    (t.add_usage 1000000 0).2 = PRICE_INPUT_PER_1M ∧
    (t.add_usage 0 1000000).2 = PRICE_OUTPUT_PER_1M := by
  refine ⟨?_, ?_, ?_⟩
  · simp [CostTracker.add_usage]
    ring
  · simp [CostTracker.add_usage]
  · simp [CostTracker.add_usage]

/-- C5: `avg_cost` on a tracker with zero recorded jobs returns `0` (the
guard avoids the division entirely, so no divide-by-zero is possible), and on
any tracker with at least one recorded cost it equals
`total_cost / len(resume_costs)`. -/
theorem C5_avg_cost (t : CostTracker) (h : t.resume_costs ≠ []) :
    CostTracker.init.avg_cost = 0 ∧
    t.avg_cost = t.total_cost / t.resume_costs.length := by
  refine ⟨rfl, ?_⟩
  rw [CostTracker.avg_cost, if_neg h]

/-- Witness for C5 at a tracker holding one recorded cost. -/
theorem C5_avg_cost_witness :
    ({ total_input_tokens := 100, total_output_tokens := 50,
       resume_costs := [(3 : ℚ)] } : CostTracker).avg_cost =
      ({ total_input_tokens := 100, total_output_tokens := 50,
         resume_costs := [(3 : ℚ)] } : CostTracker).total_cost / 1 := by
  have h := C5_avg_cost
    { total_input_tokens := 100, total_output_tokens := 50,
      resume_costs := [(3 : ℚ)] } (by simp)
  simpa using h.2

/-! ## Cooperative scheduler with semaphore (src/generate.py lines 160-185, 211-245)

`main_async` builds `semaphore = asyncio.Semaphore(concurrency)` and creates
one `generate_single_resume` task per index.  The whole body of
`generate_single_resume` — input selection, the awaited API call, and the
synchronous `render_pdf` — sits inside `async with semaphore:`, so the slot is
acquired before any per-job work and released (on both normal return and
exception, by the context-manager protocol) only after rendering.  The model
is a small-step transition system: each job is in one of five phases and the
semaphore counter is explicit state. -/

/-- The phase of one `generate_single_resume` task. -/
inductive JobPhase
  /-- Task created by `main_async` but not yet past `async with semaphore`. -/
  | pending
  /-- Slot held: selecting inputs and awaiting `generate_resume_data`. -/
  | calling
  /-- Slot held: executing the synchronous `render_pdf` step. -/
  | rendering
  /-- Returned `(index, cost)`; the context manager released the slot. -/
  | doneOk
  /-- Exited via an exception; the context manager still released the slot. -/
  | doneErr
deriving DecidableEq, Repr

/-- A job in its held-slot phase (between acquire and release). -/
def JobPhase.holding : JobPhase → Bool
  | .calling => true
  | .rendering => true
  | _ => false

/-- A job that has settled (returned or raised). -/
def JobPhase.settled : JobPhase → Bool
  | .doneOk => true
  | .doneErr => true
  | _ => false

/-- Scheduler state: the `asyncio.Semaphore` internal counter and the phase
of every launched job. -/
structure SchedState where
  sem : Nat
  jobs : List JobPhase
deriving DecidableEq, Repr

/-- State just after `main_async` created its `total` tasks with
`asyncio.Semaphore(limit)`: full counter, every job pending. -/
def SchedState.start (limit total : Nat) : SchedState :=
  { sem := limit, jobs := List.replicate total .pending }

/-- Number of jobs currently inside their held-slot phase. -/
def SchedState.holdingCount (s : SchedState) : Nat :=
  s.jobs.countP (·.holding)

/-- One cooperative scheduling step.  `acquire` embeds
`semaphore.acquire()` (blocks unless the counter is positive); the three
terminal steps embed the `async with` releases on every exit path: API-call
failure (network error or `json.loads` failure), render failure, and normal
completion. -/
inductive SchedStep : SchedState → SchedState → Prop
  | acquire (s : SchedState) (j : Nat) (hj : s.jobs[j]? = some .pending)
      (hs : 0 < s.sem) :
      SchedStep s { sem := s.sem - 1, jobs := s.jobs.set j .calling }
  | apiDone (s : SchedState) (j : Nat) (hj : s.jobs[j]? = some .calling) :
      SchedStep s { sem := s.sem, jobs := s.jobs.set j .rendering }
  | apiFail (s : SchedState) (j : Nat) (hj : s.jobs[j]? = some .calling) :
      SchedStep s { sem := s.sem + 1, jobs := s.jobs.set j .doneErr }
  | renderDone (s : SchedState) (j : Nat) (hj : s.jobs[j]? = some .rendering) :
      SchedStep s { sem := s.sem + 1, jobs := s.jobs.set j .doneOk }
  | renderFail (s : SchedState) (j : Nat) (hj : s.jobs[j]? = some .rendering) :
      SchedStep s { sem := s.sem + 1, jobs := s.jobs.set j .doneErr }

/-- States reachable during a run with `concurrency_limit = limit` and
`total_count = total`. -/
inductive Reachable (limit total : Nat) : SchedState → Prop
  | start : Reachable limit total (SchedState.start limit total)
  | step {s s' : SchedState} : Reachable limit total s → SchedStep s s' →
      Reachable limit total s'

lemma countP_set (f : JobPhase → Bool) (l : List JobPhase) (j : Nat)
    (p q : JobPhase) (hj : l[j]? = some p) :
    (l.set j q).countP f + (if f p then 1 else 0) =
      l.countP f + (if f q then 1 else 0) := by
  induction l generalizing j with
  | nil => simp at hj
  | cons a l ih =>
    cases j with
    | zero =>
      simp only [List.getElem?_cons_zero, Option.some.injEq] at hj
      subst hj
      simp [List.countP_cons]
      omega
    | succ j =>
      simp only [List.getElem?_cons_succ] at hj
      simp [List.countP_cons, List.set_cons_succ]
      have h := ih j hj
      omega

/-- Evaluation facts for the slot-count bookkeeping. -/
lemma ite_holding_pending : (if JobPhase.pending.holding = true then (1 : Nat) else 0) = 0 := rfl

lemma ite_holding_calling : (if JobPhase.calling.holding = true then (1 : Nat) else 0) = 1 := rfl

lemma ite_holding_rendering : (if JobPhase.rendering.holding = true then (1 : Nat) else 0) = 1 := rfl

lemma ite_holding_doneOk : (if JobPhase.doneOk.holding = true then (1 : Nat) else 0) = 0 := rfl

lemma ite_holding_doneErr : (if JobPhase.doneErr.holding = true then (1 : Nat) else 0) = 0 := rfl

/-- The inductive invariant: the free-slot counter plus the number of
slot-holders is exactly the limit, and the job list never changes length. -/
lemma reachable_invariant {limit total : Nat} {s : SchedState}
    (h : Reachable limit total s) :
    s.sem + s.holdingCount = limit ∧ s.jobs.length = total := by
  induction h with
  | start =>
    have hz : (List.replicate total JobPhase.pending).countP (·.holding) = 0 := by
      apply List.countP_eq_zero.mpr
      intro p hp
      rw [List.eq_of_mem_replicate hp]
      simp [JobPhase.holding]
    constructor
    · simp [SchedState.start, SchedState.holdingCount, hz]
    · simp [SchedState.start]
  | @step s s' hr hstep ih =>
    obtain ⟨hsem, hlen⟩ := ih
    cases hstep with
    | acquire j hj hs =>
      have hc := countP_set (·.holding) s.jobs j _ .calling hj
      simp only [ite_holding_pending, ite_holding_calling, ite_holding_rendering,
        ite_holding_doneOk, ite_holding_doneErr] at hc
      refine ⟨?_, by simpa using hlen⟩
      simp only [SchedState.holdingCount] at hsem ⊢
      omega
    | apiDone j hj =>
      have hc := countP_set (·.holding) s.jobs j _ .rendering hj
      simp only [ite_holding_pending, ite_holding_calling, ite_holding_rendering,
        ite_holding_doneOk, ite_holding_doneErr] at hc
      refine ⟨?_, by simpa using hlen⟩
      simp only [SchedState.holdingCount] at hsem ⊢
      omega
    | apiFail j hj =>
      have hc := countP_set (·.holding) s.jobs j _ .doneErr hj
      simp only [ite_holding_pending, ite_holding_calling, ite_holding_rendering,
        ite_holding_doneOk, ite_holding_doneErr] at hc
      refine ⟨?_, by simpa using hlen⟩
      simp only [SchedState.holdingCount] at hsem ⊢
      omega
    | renderDone j hj =>
      have hc := countP_set (·.holding) s.jobs j _ .doneOk hj
      simp only [ite_holding_pending, ite_holding_calling, ite_holding_rendering,
        ite_holding_doneOk, ite_holding_doneErr] at hc
      refine ⟨?_, by simpa using hlen⟩
      simp only [SchedState.holdingCount] at hsem ⊢
      omega
    | renderFail j hj =>
      have hc := countP_set (·.holding) s.jobs j _ .doneErr hj
      simp only [ite_holding_pending, ite_holding_calling, ite_holding_rendering,
        ite_holding_doneOk, ite_holding_doneErr] at hc
      refine ⟨?_, by simpa using hlen⟩
      simp only [SchedState.holdingCount] at hsem ⊢
      omega

lemma countP_calling_le_holding (l : List JobPhase) :
    l.countP (· = .calling) ≤ l.countP (·.holding) := by
  apply List.countP_mono_left
  intro p _ hp
  simp only [decide_eq_true_eq] at hp
  subst hp
  rfl

/-- C2: in every state reachable during a run, the number of jobs inside
their held-slot phase never exceeds `concurrency_limit`; in particular the
number of jobs with an outstanding external-API call (phase `calling`) never
exceeds it.  The model acquires the slot before any per-job work and holds it
through the rendering step, exactly as the `async with semaphore:` block
wrapping the whole body of `generate_single_resume` does. -/
theorem C2_concurrency_cap {limit total : Nat} {s : SchedState}
    (h : Reachable limit total s) :
    s.holdingCount ≤ limit ∧ s.jobs.countP (· = .calling) ≤ limit := by
  have hinv := (reachable_invariant h).1
  constructor
  · omega
  · calc s.jobs.countP (· = .calling) ≤ s.jobs.countP (·.holding) :=
          countP_calling_le_holding s.jobs
      _ = s.holdingCount := rfl
      _ ≤ limit := by omega

/-- Witness for C2: with `concurrency_limit = 2` and `total_count = 3`, the
state reached after the first job acquires its slot has at most 2 holders. -/
theorem C2_concurrency_cap_witness :
    ({ sem := 1,
       jobs := [JobPhase.calling, JobPhase.pending, JobPhase.pending] } :
      SchedState).holdingCount ≤ 2 := by
  have hr : Reachable 2 3
      { sem := 1,
        jobs := [JobPhase.calling, JobPhase.pending, JobPhase.pending] } :=
    Reachable.step Reachable.start
      (SchedStep.acquire (SchedState.start 2 3) 0 rfl (by decide))
  exact (C2_concurrency_cap hr).1

/-- C7: the slot pool never permanently shrinks: in every reachable state in
which all jobs have settled — whether by returning or by raising through any
step — the semaphore counter is back to `concurrency_limit`. -/
theorem C7_slots_restored {limit total : Nat} {s : SchedState}
    (h : Reachable limit total s) (hdone : ∀ p ∈ s.jobs, p.settled) :
    s.sem = limit := by
  have hinv := (reachable_invariant h).1
  have hz : s.holdingCount = 0 := by
    apply List.countP_eq_zero.mpr
    intro p hp
    have hs := hdone p hp
    cases p <;> simp_all [JobPhase.settled, JobPhase.holding]
  omega

/-- Witness for C7: a complete run with `concurrency_limit = 1`,
`total_count = 2`, in which the first job succeeds and the second fails at
its API call, ends with the semaphore counter restored to 1. -/
theorem C7_slots_restored_witness :
    ({ sem := 1, jobs := [JobPhase.doneOk, JobPhase.doneErr] } :
      SchedState).sem = 1 := by
  have h1 : Reachable 1 2 { sem := 0, jobs := [JobPhase.calling, JobPhase.pending] } :=
    Reachable.step Reachable.start
      (SchedStep.acquire (SchedState.start 1 2) 0 rfl (by decide))
  have h2 : Reachable 1 2 { sem := 0, jobs := [JobPhase.rendering, JobPhase.pending] } :=
    Reachable.step h1 (SchedStep.apiDone _ 0 rfl)
  have h3 : Reachable 1 2 { sem := 1, jobs := [JobPhase.doneOk, JobPhase.pending] } :=
    Reachable.step h2 (SchedStep.renderDone _ 0 rfl)
  have h4 : Reachable 1 2 { sem := 0, jobs := [JobPhase.doneOk, JobPhase.calling] } :=
    Reachable.step h3 (SchedStep.acquire _ 1 rfl (by decide))
  have h5 : Reachable 1 2 { sem := 1, jobs := [JobPhase.doneOk, JobPhase.doneErr] } :=
    Reachable.step h4 (SchedStep.apiFail _ 1 rfl)
  exact C7_slots_restored h5 (by decide)

/-! ## generate_resume_data (src/generate.py lines 100-123)

The awaited API response and the `json` library are external collaborators:
the response is a value carrying `usage` token counts and the message
`content` string, and `json_loads` is the parameter modelling `json.loads`
(`some` = parsed record, `none` = raises, modelled as the spec's
`MalformedResponseError`).  Line 121 records usage in the tracker *before*
line 123 parses the content, so the tracker update survives a parse
failure. -/

/-- The `response.usage` fields read at line 121. -/
structure Usage where
  prompt_tokens : Nat
  completion_tokens : Nat
deriving DecidableEq, Repr

/-- The fields of the API response that `generate_resume_data` reads:
`response.usage` and `response.choices[0].message.content`. -/
structure APIResponse where
  usage : Usage
  content : String
deriving DecidableEq, Repr

/-- The per-job error surface.  `MalformedResponseError` is the spec's name
for the parse failure `json.loads` raises on unparseable content. -/
inductive GenError
  | MalformedResponseError
deriving DecidableEq, Repr

/-- `generate_resume_data`: record usage (line 121), then parse (line 123).
The Python function mutates the tracker and either returns
`(parsed, cost)` or raises; the embedding returns the updated tracker on
both paths. -/
def generate_resume_data {α : Type} (json_loads : String → Option α)
    (response : APIResponse) (cost_tracker : CostTracker) :
    CostTracker × Except GenError (α × ℚ) :=
  let step := cost_tracker.add_usage response.usage.prompt_tokens
    response.usage.completion_tokens
  match json_loads response.content with
  | some data => (step.1, Except.ok (data, step.2))
  | none => (step.1, Except.error GenError.MalformedResponseError)

/-- The data/error path of `generate_single_resume` (lines 160-185) after the
API call: there is no `try/except`, so an error from
`generate_resume_data` propagates unchanged to the orchestrator's
`asyncio.gather`; on success the job returns `(index, cost)`. -/
def generate_single_resume {α : Type} (json_loads : String → Option α)
    (index : Nat) (response : APIResponse) (cost_tracker : CostTracker) :
    CostTracker × Except GenError (Nat × ℚ) :=
  match generate_resume_data json_loads response cost_tracker with
  | (t2, Except.ok (_, cost)) => (t2, Except.ok (index, cost))
  | (t2, Except.error e) => (t2, Except.error e)

/-- C3: when the response body does not parse, the job fails with
`MalformedResponseError`, the error propagates through
`generate_single_resume` to the orchestrator rather than being swallowed,
and the tracker returned on the error path is exactly the post-`add_usage`
tracker — the recorded tokens are not discarded or rolled back. -/
theorem C3_malformed_response {α : Type} (json_loads : String → Option α)
    (index : Nat) (response : APIResponse) (t : CostTracker)
    (h : json_loads response.content = none) :
    (generate_resume_data json_loads response t).2 =
      Except.error GenError.MalformedResponseError ∧
    (generate_resume_data json_loads response t).1 =
      (t.add_usage response.usage.prompt_tokens
        response.usage.completion_tokens).1 ∧
    (generate_single_resume json_loads index response t).2 =
      Except.error GenError.MalformedResponseError ∧
    (generate_single_resume json_loads index response t).1.total_input_tokens =
      t.total_input_tokens + response.usage.prompt_tokens ∧
    (generate_single_resume json_loads index response t).1.total_output_tokens =
      t.total_output_tokens + response.usage.completion_tokens := by
  simp [generate_resume_data, generate_single_resume, h, CostTracker.add_usage]

/-- Witness for C3: a parser that rejects everything, a response with 100
input and 50 output tokens, and a fresh tracker. -/
theorem C3_malformed_response_witness :
    (generate_resume_data (fun _ => (none : Option Nat))
        { usage := { prompt_tokens := 100, completion_tokens := 50 },
          content := "not json" } CostTracker.init).2 =
      Except.error GenError.MalformedResponseError ∧
    (generate_single_resume (fun _ => (none : Option Nat)) 1
        { usage := { prompt_tokens := 100, completion_tokens := 50 },
          content := "not json" } CostTracker.init).1.total_input_tokens =
      100 := by
  have h := C3_malformed_response (fun _ => (none : Option Nat)) 1
    { usage := { prompt_tokens := 100, completion_tokens := 50 },
      content := "not json" } CostTracker.init rfl
  exact ⟨h.1, h.2.2.2.1⟩

/-! ## select_role (src/generate.py lines 86-97)

`select_role` draws `tier_index = random.choices(range(len(weights)),
weights=weights)[0]` and then `random.choice` from the primary pool when
`tier_index == 0`, else from the secondary pool.  The entropy is made
explicit: `u ∈ [0, 1)` is the `random()` draw that CPython's
`random.choices` multiplies by the cumulative-weight total and bisects, and
`r` is the draw behind `random.choice`, reduced modulo the pool size. -/

/-- One industry's entry of `data/role_mapping.json`:
`{primary role pool, secondary role pool, selection weights}`. -/
structure RoleMapping where
  primary : List String
  secondary : List String
  weights : List ℚ
deriving DecidableEq, Repr

/-- `itertools.accumulate(weights)`: the list of cumulative sums. -/
def cumWeights (weights : List ℚ) : List ℚ :=
  (weights.scanl (· + ·) 0).tail

/-- `random.choices(range(len(weights)), weights=weights)[0]`: build the
cumulative weights, scale the unit draw `u` by their total, and bisect
(for the sorted cumulative list, `bisect_right` with `hi = len - 1` is the
number of entries among the first `len - 1` that are `≤` the scaled draw). -/
def choices_index (weights : List ℚ) (u : ℚ) : Nat :=
  let cum := cumWeights weights
  let total := cum.getLastD 0
  (cum.take (weights.length - 1)).countP (fun c => c ≤ u * total)

/-- `random.choice(pool)`: a uniform draw, modelled by reducing the random
natural `r` modulo the pool size; `none` on an empty pool (`IndexError`). -/
def random_choice (pool : List String) (r : Nat) : Option String :=
  pool[r % pool.length]?

/-- `select_role` with the two random draws made explicit. -/
def select_role (mapping : RoleMapping) (u : ℚ) (r : Nat) : Option String :=
  let tier_index := choices_index mapping.weights u
  if tier_index = 0 then random_choice mapping.primary r
  else random_choice mapping.secondary r

lemma random_choice_mem (pool : List String) (r : Nat) (x : String)
    (h : random_choice pool r = some x) : x ∈ pool :=
  List.getElem?_mem h

/-- C6: with weights `[1, 0]`, `select_role` always draws from the primary
pool (and any returned role is a member of it); with `[0, 1]`, always from
the secondary pool; and in general tier index `0` selects from the primary
pool while any other tier index selects from the secondary pool. -/
theorem C6_select_role_weights (mapping : RoleMapping) (u : ℚ) (r : Nat)
    (h0 : 0 ≤ u) (h1 : u < 1) :
    (mapping.weights = [1, 0] →
      select_role mapping u r = random_choice mapping.primary r ∧
      ∀ x, select_role mapping u r = some x → x ∈ mapping.primary) ∧
    (mapping.weights = [0, 1] →
      select_role mapping u r = random_choice mapping.secondary r ∧
      ∀ x, select_role mapping u r = some x → x ∈ mapping.secondary) ∧
    (choices_index mapping.weights u = 0 →
      select_role mapping u r = random_choice mapping.primary r) ∧
    (choices_index mapping.weights u ≠ 0 →
      select_role mapping u r = random_choice mapping.secondary r) := by
  refine ⟨?_, ?_, ?_, ?_⟩
  · intro hw
    have hidx : choices_index mapping.weights u = 0 := by
      simp [choices_index, cumWeights, hw, List.countP_cons]
      linarith
    refine ⟨by simp [select_role, hidx], ?_⟩
    intro x hx
    rw [select_role] at hx
    simp only [hidx, if_pos rfl] at hx
    exact random_choice_mem _ _ _ hx
  · intro hw
    have hidx : choices_index mapping.weights u = 1 := by
      simp [choices_index, cumWeights, hw, List.countP_cons]
      linarith
    refine ⟨by simp [select_role, hidx], ?_⟩
    intro x hx
    rw [select_role] at hx
    simp only [hidx, if_neg one_ne_zero] at hx
    exact random_choice_mem _ _ _ hx
  · intro hidx
    simp [select_role, hidx]
  · intro hidx
    simp [select_role, hidx]

/-- Witness for C6: an industry with primary pool `["Engineer"]`, secondary
pool `["Analyst"]`, weights `[1, 0]`, draw `u = 1/2`, `r = 0`: the selected
role is the primary pool's element. -/
theorem C6_select_role_weights_witness :
    select_role
      { primary := ["Engineer"], secondary := ["Analyst"], weights := [1, 0] }
      (1 / 2) 0 = some "Engineer" := by
  have h := (C6_select_role_weights
    { primary := ["Engineer"], secondary := ["Analyst"], weights := [1, 0] }
    (1 / 2) 0 (by norm_num) (by norm_num)).1 rfl
  rw [h.1]
  rfl

/-! ## Output paths (src/generate.py lines 141, 237-245)

`render_pdf` writes to `OUTPUT_DIR / f"resume_{index:04d}.pdf"` and
`main_async` creates one `generate_single_resume` task per index in
`range(1, total + 1)`.  Python's `{index:04d}` prints the index's decimal
digits left-padded with zeros to a minimum width of 4.  The digit expansion
is embedded with an explicit fuel argument so that it is structurally
recursive (the fuel `n` always suffices, since a number has at most `n`
decimal digits). -/

/-- Little-endian decimal digits of `n`, with explicit fuel. -/
def pyDigitsLE (fuel : Nat) (n : Nat) : List Nat :=
  match fuel with
  | 0 => []
  | fuel + 1 => if n = 0 then [] else n % 10 :: pyDigitsLE fuel (n / 10)

/-- Big-endian decimal digits of `n` (`[]` for `0`). -/
def natDigitsBE (n : Nat) : List Nat :=
  (pyDigitsLE n n).reverse

/-- `{n:04d}` digit list: left-pad the decimal digits with zeros to a
minimum width of 4. -/
def pad4digits (n : Nat) : List Nat :=
  List.replicate (4 - (natDigitsBE n).length) 0 ++ natDigitsBE n

/-- The ASCII character of one decimal digit. -/
def digitChar : Nat → Char
  | 0 => '0'
  | 1 => '1'
  | 2 => '2'
  | 3 => '3'
  | 4 => '4'
  | 5 => '5'
  | 6 => '6'
  | 7 => '7'
  | 8 => '8'
  | 9 => '9'
  | _ => '0'

/-- Inverse of `digitChar` on decimal digit characters. -/
def charDigit : Char → Nat
  | '1' => 1
  | '2' => 2
  | '3' => 3
  | '4' => 4
  | '5' => 5
  | '6' => 6
  | '7' => 7
  | '8' => 8
  | '9' => 9
  | _ => 0

/-- The output path of job `index`: `f"resume_{index:04d}.pdf"` (line 141,
relative to `OUTPUT_DIR`). -/
def pdf_name (index : Nat) : String :=
  "resume_" ++ String.mk ((pad4digits index).map digitChar) ++ ".pdf"

/-- The job indices created by `main_async` (line 241): `range(1, total + 1)`. -/
def job_indices (total : Nat) : List Nat :=
  List.range' 1 total

/-- The output paths of a fully successful run, one per job index. -/
def output_paths (total : Nat) : List String :=
  (job_indices total).map pdf_name

lemma pyDigitsLE_ofDigits (fuel n : Nat) (h : n ≤ fuel) :
    Nat.ofDigits 10 (pyDigitsLE fuel n) = n := by
  induction fuel generalizing n with
  | zero =>
    interval_cases n
    rfl
  | succ fuel ih =>
    rw [pyDigitsLE]
    by_cases hn : n = 0
    · simp [hn]
    · rw [if_neg hn, Nat.ofDigits_cons, ih (n / 10) ?_]
      · omega
      · have : n / 10 < n := Nat.div_lt_self (Nat.pos_of_ne_zero hn) (by norm_num)
        omega

lemma pyDigitsLE_lt (fuel n : Nat) : ∀ d ∈ pyDigitsLE fuel n, d < 10 := by
  induction fuel generalizing n with
  | zero => simp [pyDigitsLE]
  | succ fuel ih =>
    intro d hd
    rw [pyDigitsLE] at hd
    by_cases hn : n = 0
    · simp [hn] at hd
    · rw [if_neg hn, List.mem_cons] at hd
      rcases hd with hd | hd
      · subst hd
        exact Nat.mod_lt _ (by norm_num)
      · exact ih _ _ hd

lemma ofDigits_replicate_zero (k : Nat) :
    Nat.ofDigits 10 (List.replicate k 0) = 0 := by
  induction k with
  | zero => rfl
  | succ k ih => simp [List.replicate_succ, Nat.ofDigits_cons, ih]

lemma pad4digits_lt (n : Nat) : ∀ d ∈ pad4digits n, d < 10 := by
  intro d hd
  rw [pad4digits, List.mem_append] at hd
  rcases hd with hd | hd
  · rw [List.eq_of_mem_replicate hd]
    norm_num
  · rw [natDigitsBE, List.mem_reverse] at hd
    exact pyDigitsLE_lt n n d hd

lemma ofDigits_pad4digits (n : Nat) :
    Nat.ofDigits 10 (pad4digits n).reverse = n := by
  rw [pad4digits, List.reverse_append, List.reverse_replicate, natDigitsBE,
    List.reverse_reverse, Nat.ofDigits_append, pyDigitsLE_ofDigits n n le_rfl,
    ofDigits_replicate_zero]
  ring

lemma charDigit_digitChar (d : Nat) (h : d < 10) :
    charDigit (digitChar d) = d := by
  interval_cases d <;> rfl

/-- Recover the job index from its output path: strip the 7-character
`resume_` prefix and the 4-character `.pdf` suffix, read the digits. -/
def recover_index (s : String) : Nat :=
  let mid := (s.data.drop 7).take ((s.data.drop 7).length - 4)
  Nat.ofDigits 10 (mid.map charDigit).reverse

lemma recover_index_pdf_name (n : Nat) : recover_index (pdf_name n) = n := by
  have hdata : (pdf_name n).data =
      ("resume_").data ++ (pad4digits n).map digitChar ++ (".pdf").data := rfl
  rw [recover_index, hdata]
  rw [List.append_assoc]
  have h7 : (("resume_").data).length = 7 := rfl
  rw [← h7, List.drop_left]
  have hlen : (((pad4digits n).map digitChar) ++ (".pdf").data).length - 4 =
      ((pad4digits n).map digitChar).length := by
    simp
  rw [hlen, List.take_left]
  rw [List.map_map]
  have hmap : (pad4digits n).map (charDigit ∘ digitChar) = (pad4digits n).map id := by
    apply List.map_eq_map_iff.mpr
    intro d hd
    exact charDigit_digitChar d (pad4digits_lt n d hd)
  rw [hmap, List.map_id]
  exact ofDigits_pad4digits n

lemma pdf_name_injective : Function.Injective pdf_name := by
  intro a b h
  have := congrArg recover_index h
  rwa [recover_index_pdf_name, recover_index_pdf_name] at this

/-- C8: the orchestrator creates exactly `K` jobs with indices `1..K`
inclusive, and a fully successful run writes exactly `K` output files whose
paths are the zero-padded names `resume_0001.pdf, ...` and are pairwise
distinct, independent of completion order (each path depends only on the
job's own index). -/
theorem C8_output_files (K : Nat) :
    (job_indices K).length = K ∧
    (∀ i, i ∈ job_indices K ↔ 1 ≤ i ∧ i ≤ K) ∧
    (output_paths K).length = K ∧
    (output_paths K).Nodup ∧
    pdf_name 1 = "resume_0001.pdf" := by
  refine ⟨?_, ?_, ?_, ?_, ?_⟩
  · simp [job_indices]
  · intro i
    rw [job_indices, List.mem_range'_1]
    omega
  · simp [output_paths, job_indices]
  · exact (List.nodup_map_iff_inj_on (List.nodup_range' 1 K)).mpr
      (fun x _ y _ h => pdf_name_injective h)
  · decide

/-! ## Cost-log artifact (src/generate.py lines 256-269) -/

/-- The JSON object `cost_log` assembled in `main_async`, with exactly the
seven fields of lines 257-265. -/
structure CostLog where
  total_resumes : Nat
  total_time_seconds : ℚ
  total_input_tokens : Nat
  total_output_tokens : Nat
  total_cost_usd : ℚ
  avg_cost_per_resume_usd : ℚ
  per_resume_costs_usd : List ℚ
deriving DecidableEq, Repr

/-- The `cost_log` dictionary built from the run's totals and the final
tracker (lines 257-265). -/
def make_cost_log (total : Nat) (elapsed : ℚ) (t : CostTracker) : CostLog :=
  { total_resumes := total,
    total_time_seconds := elapsed,
    total_input_tokens := t.total_input_tokens,
    total_output_tokens := t.total_output_tokens,
    total_cost_usd := t.total_cost,
    avg_cost_per_resume_usd := t.avg_cost,
    per_resume_costs_usd := t.resume_costs }

/-- Lines 256-269: the artifact is written under `if save_costs:` and only
there; `none` models "no file written". -/
def cost_log_artifact (save_costs : Bool) (total : Nat) (elapsed : ℚ)
    (t : CostTracker) : Option CostLog :=
  if save_costs then some (make_cost_log total elapsed t) else none

/-- C9: the cost-log artifact is written iff `--save-costs` is set; when
written it carries exactly the documented fields — total resumes, elapsed
seconds, the tracker's token totals, total cost, average cost, and the
ordered per-resume cost list — and for a successful run (one `add_usage`
call per job) the per-resume list's length equals `total_count`. -/
theorem C9_cost_log (save_costs : Bool) (total : Nat) (elapsed : ℚ)
    (calls : List (Nat × Nat)) (hrun : calls.length = total) :
    ((cost_log_artifact save_costs total elapsed
        (runCalls CostTracker.init calls).1).isSome ↔ save_costs = true) ∧
    cost_log_artifact true total elapsed (runCalls CostTracker.init calls).1 =
      some
        { total_resumes := total,
          total_time_seconds := elapsed,
          total_input_tokens :=
            (runCalls CostTracker.init calls).1.total_input_tokens,
          total_output_tokens :=
            (runCalls CostTracker.init calls).1.total_output_tokens,
          total_cost_usd := (runCalls CostTracker.init calls).1.total_cost,
          avg_cost_per_resume_usd :=
            (runCalls CostTracker.init calls).1.avg_cost,
          per_resume_costs_usd :=
            (runCalls CostTracker.init calls).1.resume_costs } ∧
    cost_log_artifact false total elapsed
      (runCalls CostTracker.init calls).1 = none ∧
    (make_cost_log total elapsed
      (runCalls CostTracker.init calls).1).per_resume_costs_usd.length =
      total := by
  refine ⟨?_, rfl, rfl, ?_⟩
  · cases save_costs <;> simp [cost_log_artifact]
  · rw [make_cost_log]
    rw [runCalls_costs]
    rw [show CostTracker.init.resume_costs = [] from rfl]
    rw [List.nil_append, runCalls_length, hrun]

/-- Witness for C9 at a concrete successful two-job run. -/
theorem C9_cost_log_witness :
    (cost_log_artifact false 2 10 (runCalls CostTracker.init
        [(100, 50), (200, 75)]).1 = none) ∧
    (make_cost_log 2 10 (runCalls CostTracker.init
        [(100, 50), (200, 75)]).1).per_resume_costs_usd.length = 2 := by
  have h := C9_cost_log false 2 10 [(100, 50), (200, 75)] rfl
  exact ⟨h.2.2.1, h.2.2.2⟩

/-! ## Prompt construction (src/models/prompts.py)

`SCHEMA_STR = json.dumps(RESUME_SCHEMA, separators=(',', ':'))` is the
compact serialization of the schema dict; it is transcribed below with the
brace characters written via hex escapes.  Each entry of `TIER_PROMPTS` is a
format string over `role`, `industry`, `seniority`, `schema`; the embedding
writes the `.format` application as concatenation at the placeholder
positions. -/

/-- `SCHEMA_STR` (prompts.py line 34). -/
def SCHEMA_STR : String :=
  "\x7b\"summary\":\"2-3 sentence professional summary with keywords\",\"skills\":[\"skill1\",\"skill2\",\"...\"],\"experience\":[\x7b\"title\":\"Standard Job Title (no abbreviations)\",\"company\":\"Fictional Company Name\",\"location\":\"City, State\",\"start_date\":\"Month YYYY\",\"end_date\":\"Month YYYY or Present\",\"bullets\":[\"Action verb + task + result/metric\",\"...\"]\x7d],\"education\":[\x7b\"degree\":\"Full Degree Name (e.g., Bachelor of Science in Computer Science)\",\"institution\":\"University Name\",\"year\":\"YYYY\",\"gpa\":\"3.X (optional, only if > 3.5)\"\x7d],\"certifications\":[\"Full Certification Name (Issuing Organization)\"]\x7d"

/-- `get_seniority_tier` (prompts.py lines 37-43). -/
def get_seniority_tier (years : Int) : String :=
  if years ≤ 4 then "junior"
  else if years ≤ 10 then "mid"
  else "senior"

/-- `SYSTEM_PROMPT` (prompts.py lines 47-62). -/
def SYSTEM_PROMPT : String :=
  "Generate fictional resume JSON optimized for ATS parsing.\n\nATS Rules:\n- Use standard job titles (Software Engineer not SWE, Project Manager not PM)\n- Dates as \"Month YYYY\" format (January 2023, not Jan 2023 or 01/2023)\n- Start bullets with strong action verbs (Led, Developed, Implemented, Managed, Designed)\n- Include quantified achievements (%, $, numbers) in bullets\n- Skills as individual items, no compound skills\n- Full degree names (Bachelor of Science, not BS or B.S.)\n- Include industry keywords naturally in summary and bullets\n\nContent Rules:\n- All data fictional - no real people/companies\n- Company names: use patterns like \"Vertex Technologies\", \"Apex Solutions\", \"Summit Group\"\n- Dates must be logical: no overlaps, recent job ends \"Present\" or within 6 months\n- Output valid JSON only"

/-- The `"junior"` entry of `TIER_PROMPTS`, with `.format` applied. -/
def junior_tier_prompt (role industry seniority schema : String) : String :=
  role ++ " in " ++ industry ++ ", " ++ seniority ++
  "yrs exp.\n1-2 jobs, education focus, 2-3 bullets each.\nInclude: relevant coursework/projects, internships count as jobs.\nSkills: 8-12 relevant technical and soft skills.\nSchema:" ++
  schema

/-- The `"mid"` entry of `TIER_PROMPTS`, with `.format` applied. -/
def mid_tier_prompt (role industry seniority schema : String) : String :=
  role ++ " in " ++ industry ++ ", " ++ seniority ++
  "yrs exp.\n3-4 jobs, balanced achievements, 3-4 bullets each.\nInclude: promotions, team leadership, project ownership.\nSkills: 12-15 skills mixing technical expertise and domain knowledge.\nSchema:" ++
  schema

/-- The `"senior"` entry of `TIER_PROMPTS`, with `.format` applied. -/
def senior_tier_prompt (role industry seniority schema : String) : String :=
  role ++ " in " ++ industry ++ ", " ++ seniority ++
  "yrs exp.\n4-5 jobs, leadership focus, 4-5 bullets each.\nInclude: team size managed, budget responsibility, strategic initiatives.\nSkills: 15-20 skills including leadership, strategy, and technical expertise.\nSchema:" ++
  schema

/-- The `TIER_PROMPTS` dict (prompts.py lines 66-84) as a keyed lookup:
`none` models a `KeyError`. -/
def TIER_PROMPTS (tier : String) :
    Option (String → String → String → String → String) :=
  if tier = "junior" then some junior_tier_prompt
  else if tier = "mid" then some mid_tier_prompt
  else if tier = "senior" then some senior_tier_prompt
  else none

/-- `build_prompt` (prompts.py lines 87-102): look the tier up in
`TIER_PROMPTS`, format it, and pair it with `SYSTEM_PROMPT`. -/
def build_prompt (industry role : String) (seniority : Int) :
    Option (String × String) :=
  (TIER_PROMPTS (get_seniority_tier seniority)).map
    (fun tpl =>
      (SYSTEM_PROMPT, tpl role industry (toString seniority) SCHEMA_STR))

/-- C10: for every integer `years`, `get_seniority_tier` returns exactly one
of `"junior"`, `"mid"`, `"senior"`, with `"junior"` iff `years ≤ 4`, `"mid"`
iff `5 ≤ years ≤ 10`, `"senior"` iff `years ≥ 11`; in particular every
seniority a job can draw (`random.randint(1, 18)`, i.e. 1-18 inclusive) maps
to a tier present in `TIER_PROMPTS`, so `build_prompt` is total on the job's
input domain. -/
theorem C10_seniority_tier (years : Int) (industry role : String) :
    (get_seniority_tier years = "junior" ∨ get_seniority_tier years = "mid" ∨
      get_seniority_tier years = "senior") ∧
    (get_seniority_tier years = "junior" ↔ years ≤ 4) ∧
    (get_seniority_tier years = "mid" ↔ 5 ≤ years ∧ years ≤ 10) ∧
    (get_seniority_tier years = "senior" ↔ 11 ≤ years) ∧
    (1 ≤ years → years ≤ 18 →
      (TIER_PROMPTS (get_seniority_tier years)).isSome ∧
      (build_prompt industry role years).isSome) := by
  have hjm : ("junior" : String) ≠ "mid" := by decide
  have hjs : ("junior" : String) ≠ "senior" := by decide
  have hms : ("mid" : String) ≠ "senior" := by decide
  rw [get_seniority_tier, build_prompt, get_seniority_tier]
  split_ifs with h4 h10
  · refine ⟨Or.inl rfl, by simp [h4], ?_, ?_, fun _ _ => ⟨?_, ?_⟩⟩
    · simp only [hjm, false_iff]
      omega
    · simp only [hjs, false_iff]
      omega
    · rw [TIER_PROMPTS]
      simp
    · rw [TIER_PROMPTS]
      simp
  · refine ⟨Or.inr (Or.inl rfl), ?_, by simp; omega, ?_, fun _ _ => ⟨?_, ?_⟩⟩
    · simp only [Ne.symm hjm, false_iff]
      omega
    · simp only [hms, false_iff]
      omega
    · rw [TIER_PROMPTS]
      simp [Ne.symm hjm]
    · rw [TIER_PROMPTS]
      simp [Ne.symm hjm]
  · refine ⟨Or.inr (Or.inr rfl), ?_, ?_, by simp; omega, fun _ _ => ⟨?_, ?_⟩⟩
    · simp only [Ne.symm hjs, false_iff]
      omega
    · simp only [Ne.symm hms, false_iff]
      omega
    · rw [TIER_PROMPTS]
      simp [Ne.symm hjs, Ne.symm hms]
    · rw [TIER_PROMPTS]
      simp [Ne.symm hjs, Ne.symm hms]

/-- Witness for C10 at `years = 7`: the mid tier, and a built prompt with the
1-18 bounds of the job domain discharged. -/
theorem C10_seniority_tier_witness :
    get_seniority_tier 7 = "mid" ∧
    (build_prompt "Technology" "Software Engineer" 7).isSome := by
  have h := C10_seniority_tier 7 "Technology" "Software Engineer"
  exact ⟨(h.2.2.1).mpr (by norm_num),
    (h.2.2.2.2 (by norm_num) (by norm_num)).2⟩
